import Mathlib

/-!
Shallow embedding of `apps/dashboards/views.py` (kuma dashboards views):
the localization data-table endpoint `fetch_localization_data`, the
revisions dashboard queryset construction in `revisions`, and the two
autocomplete endpoints `user_lookup` and `topic_lookup`.

Database tables are embedded as Lean lists; Django ORM filter kwargs are
embedded as an association list of (key, condition) pairs with Python dict
insert-or-replace semantics; handlers that can raise return `Except String`.
-/

set_option autoImplicit false

namespace Dashboards

/-! ## String helpers: Python `str.lower`-based matching and `jinja2.escape` -/

/-- Boolean prefix test on character lists. -/
def listPrefixOf : List Char → List Char → Bool
  | [], _ => true
  | _ :: _, [] => false
  | a :: as, b :: bs => a == b && listPrefixOf as bs

/-- Boolean contiguous-sublist test on character lists. -/
def listInfixOf (needle : List Char) : List Char → Bool
  | [] => listPrefixOf needle []
  | b :: bs => listPrefixOf needle (b :: bs) || listInfixOf needle bs

/-- Python `str.lower()`, character by character. -/
def lowerChars (cs : List Char) : List Char :=
  cs.map Char.toLower

/-- Django `field__icontains=n`: case-insensitive substring containment. -/
def icontains (hay needle : String) : Bool :=
  listInfixOf (lowerChars needle.data) (lowerChars hay.data)

/-- Django `field__istartswith=n`: case-insensitive prefix match. -/
def istartswith (hay needle : String) : Bool :=
  listPrefixOf (lowerChars needle.data) (lowerChars hay.data)

/-- The per-character replacements performed by `jinja2.escape`. -/
def escapeChar (c : Char) : String :=
  if c = '&' then "&amp;"
  else if c = '<' then "&lt;"
  else if c = '>' then "&gt;"
  else if c = '\'' then "&#39;"
  else if c = '"' then "&#34;"
  else String.singleton c

/-- `jinja2.escape`: HTML-escape a string. -/
def escape (s : String) : String :=
  String.join (s.data.map escapeChar)

/-- Drop leading whitespace from a character list (one side of Python's
implicit whitespace stripping in `int(s)`). -/
def dropSpaces : List Char → List Char
  | [] => []
  | c :: cs => if c.isWhitespace then dropSpaces cs else c :: cs

/-- Parse a non-empty all-digit character list as a decimal number; `none`
otherwise. -/
def digitsToNat? (ds : List Char) : Option Nat :=
  if ds ≠ [] ∧ ds.all Char.isDigit then
    some (ds.foldl (fun n c => n * 10 + (c.toNat - '0'.toNat)) 0)
  else
    none

/-- Python `int(s)` on a string: strip surrounding whitespace, optional
sign, decimal digits; `none` models the `ValueError` raised on any other
input. -/
def pyInt (s : String) : Option Int :=
  match dropSpaces (dropSpaces s.data.reverse).reverse with
  | '-' :: ds => (digitsToNat? ds).map (fun n => -(n : Int))
  | '+' :: ds => (digitsToNat? ds).map (fun n => (n : Int))
  | ds => (digitsToNat? ds).map (fun n => (n : Int))

/-! ## Timestamps -/

/-- A timestamp to minute precision, as used by `strftime('%b %d, %y - %H:%M')`
and by the SQL comparisons on `modified` / `created`. -/
structure DateTime where
  year : Nat
  month : Nat
  day : Nat
  hour : Nat
  minute : Nat
deriving Repr, DecidableEq

/-- Strict chronological order on timestamps (lexicographic on components). -/
def DateTime.lt (a b : DateTime) : Bool :=
  if a.year ≠ b.year then decide (a.year < b.year)
  else if a.month ≠ b.month then decide (a.month < b.month)
  else if a.day ≠ b.day then decide (a.day < b.day)
  else if a.hour ≠ b.hour then decide (a.hour < b.hour)
  else decide (a.minute < b.minute)

/-- Non-strict chronological order on timestamps. -/
def DateTime.le (a b : DateTime) : Bool :=
  DateTime.lt a b || a == b

/-- Zero-pad a number to two digits, as `strftime` does for `%d %y %H %M`. -/
def pad2 (n : Nat) : String :=
  if n < 10 then "0" ++ toString n else toString n

/-- `strftime('%b')`: abbreviated month name. -/
def monthAbbrev (m : Nat) : String :=
  (["Jan", "Feb", "Mar", "Apr", "May", "Jun",
    "Jul", "Aug", "Sep", "Oct", "Nov", "Dec"].getD (m - 1) "")

/-- `created.strftime('%b %d, %y - %H:%M')` as used for `rev_date` and
`parent_rev_date`. -/
def strftimeRevDate (t : DateTime) : String :=
  monthAbbrev t.month ++ " " ++ pad2 t.day ++ ", " ++ pad2 (t.year % 100)
    ++ " - " ++ pad2 t.hour ++ ":" ++ pad2 t.minute

/-! ## Data model -/

/-- A wiki `Revision` row: the fields these views read, namely its title,
slug, `get_absolute_url()` result, creation time, creator's username, the
locale of its document, and the names of its localization tags. -/
structure RevisionRec where
  title : String
  slug : String
  url : String
  created : DateTime
  creator_username : String
  document_locale : String
  localization_tags : List String
deriving Repr, DecidableEq

/-- A wiki `Document` row: locale, `language` display name, slug, title,
`get_absolute_url()` result, redirect flag, modification time, optional
current revision, and optional parent (source-locale) document. -/
inductive Doc : Type where
  | mk (locale language slug title url : String) (is_redirect : Bool)
      (modified : DateTime) (current_revision : Option RevisionRec)
      (parent : Option Doc)

def Doc.locale : Doc → String
  | .mk l _ _ _ _ _ _ _ _ => l

def Doc.language : Doc → String
  | .mk _ l _ _ _ _ _ _ _ => l

def Doc.slug : Doc → String
  | .mk _ _ s _ _ _ _ _ _ => s

def Doc.title : Doc → String
  | .mk _ _ _ t _ _ _ _ _ => t

def Doc.url : Doc → String
  | .mk _ _ _ _ u _ _ _ _ => u

def Doc.is_redirect : Doc → Bool
  | .mk _ _ _ _ _ r _ _ _ => r

def Doc.modified : Doc → DateTime
  | .mk _ _ _ _ _ _ m _ _ => m

def Doc.current_revision : Doc → Option RevisionRec
  | .mk _ _ _ _ _ _ _ c _ => c

def Doc.parent : Doc → Option Doc
  | .mk _ _ _ _ _ _ _ _ p => p

/-- A `django.contrib.auth` `User` row: only the username is read here. -/
structure UserRec where
  username : String
deriving Repr, DecidableEq

/-- Modelled from the spec: the constants imported from the dashboards
package (`DEFAULT_LOCALE`, `LANGUAGES`, `ORDERS`, `LOCALIZATION_FLAGS`,
`PAGE_SIZE`) live in the package `__init__`, which is not part of the
sources here; the spec describes them only as a default source locale, fixed
allow-lists of supported locales / sortable fields / flag values, and a
fixed page size, so they are parameters of the embedding. `orders` holds the
keys of the `ORDERS` pair list (the domain of `dict(ORDERS)`). -/
structure Config where
  defaultLocale : String
  languages : List String
  orders : List String
  localizationFlags : List String
  pageSize : Nat

/-! ## Filter kwargs: Python dict with insert-or-replace -/

/-- `d[k] = v` on a Python dict represented as an association list: replace
the value in place if the key is present, otherwise append the pair. -/
def setKey {α : Type} (l : List (String × α)) (k : String) (v : α) :
    List (String × α) :=
  if l.any (fun p => p.1 = k) then
    l.map (fun p => if p.1 = k then (k, v) else p)
  else
    l ++ [(k, v)]

/-- The filter conditions `fetch_localization_data` can put into
`query_kwargs`. -/
inductive Cond : Type where
  | localeEq (v : String)
  | parentIsNull (b : Bool)
  | modifiedLtParentModified
  | currentRevTagged (tag : String)
  | slugIContains (v : String)
deriving Repr, DecidableEq

/-- Evaluate one filter condition against a document, with SQL semantics:
comparisons against a NULL parent are not satisfied. -/
def Cond.eval (d : Doc) : Cond → Bool
  | .localeEq v => d.locale == v
  | .parentIsNull b => d.parent.isNone == b
  | .modifiedLtParentModified =>
      match d.parent with
      | some p => DateTime.lt d.modified p.modified
      | none => false
  | .currentRevTagged tag =>
      match d.current_revision with
      | some r => tag ∈ r.localization_tags
      | none => false
  | .slugIContains v => icontains d.slug v

/-- A document satisfies every condition in the kwargs dict
(`docs.filter(**query_kwargs)` conjoins them). -/
def condsHold (kw : List (String × Cond)) (d : Doc) : Bool :=
  kw.all (fun p => p.2.eval d)

/-- Lines 51-52 of `fetch_localization_data`: starting from the empty
`query_kwargs`, add the locale filter only when the parameter is truthy and
in the `LANGUAGES` allow-list. -/
def localeStep (cfg : Config) (locale : Option String) : List (String × Cond) :=
  match locale with
  | some l =>
    if l ≠ "" ∧ l ∈ cfg.languages then setKey [] "locale" (Cond.localeEq l)
    else []
  | none => []

/-- Lines 58-65: the mutually exclusive localization-flag branch of the
kwargs construction (first match wins; an unrecognized value adds
nothing). -/
def flagStep (cfg : Config) (localization_flags : String)
    (k : List (String × Cond)) : List (String × Cond) :=
  if localization_flags = "update-needed" then
    setKey k "modified__lt" Cond.modifiedLtParentModified
  else if localization_flags = "missing-parent" then
    setKey k "parent__isnull" (Cond.parentIsNull true)
  else if localization_flags ≠ "" ∧ localization_flags ∈ cfg.localizationFlags then
    setKey k "current_revision__localization_tags__name"
      (Cond.currentRevTagged localization_flags)
  else k

/-- Lines 67-68: add the topic filter only when the parameter is
non-empty. -/
def topicStep (topic : String) (k : List (String × Cond)) :
    List (String × Cond) :=
  if topic ≠ "" then setKey k "slug__icontains" (Cond.slugIContains topic)
  else k

/-- The `query_kwargs` dict built by `fetch_localization_data` lines 49-68:
optional locale filter, then the unconditional `parent__isnull=False`
assignment of line 56, then the localization-flag branch, then the optional
topic filter. -/
def buildQueryKwargs (cfg : Config) (locale : Option String) (topic : String)
    (localization_flags : String) : List (String × Cond) :=
  topicStep topic
    (flagStep cfg localization_flags
      (setKey (localeStep cfg locale) "parent__isnull" (Cond.parentIsNull false)))

/-! ## Ordering and slicing -/

/-- Insert an element into a list ordered by `r` (insertion-sort step). -/
def insertBy {α : Type} (r : α → α → Bool) (a : α) : List α → List α
  | [] => [a]
  | b :: l => if r a b then a :: b :: l else b :: insertBy r a l

/-- Insertion sort by the Boolean relation `r`. -/
def sortBy {α : Type} (r : α → α → Bool) : List α → List α
  | [] => []
  | a :: l => insertBy r a (sortBy r l)

/-- Modelled from the spec: the ORM's `order_by(key)` for the sortable keys
the spec names ("most recently modified first" and its variants); the
sortable-key list itself is external, so unlisted keys fall back to the
`-modified` sort the handler passes by default. -/
def applyOrder (key : String) (docs : List Doc) : List Doc :=
  if key = "modified" then
    sortBy (fun a b => DateTime.le a.modified b.modified) docs
  else if key = "title" then
    sortBy (fun a b => decide (a.title < b.title) || a.title == b.title) docs
  else if key = "-title" then
    sortBy (fun a b => decide (b.title < a.title) || a.title == b.title) docs
  else
    sortBy (fun a b => DateTime.le b.modified a.modified) docs

/-- Django queryset slice `qs[start:start + size]`: for a non-negative start
this is drop-then-take; a negative start raises (Django does not support
negative queryset indexing). -/
def sliceQS {α : Type} (l : List α) (start : Int) (size : Nat) :
    Except String (List α) :=
  if start < 0 then .error "AssertionError: Negative indexing is not supported."
  else .ok ((l.drop start.toNat).take size)

/-! ## The localization data-table endpoint -/

/-- The GET parameters `fetch_localization_data` reads; `none` is an absent
parameter. -/
structure LocRequest where
  locale : Option String
  topic : Option String
  orderby : Option String
  localization_flags : Option String
  iDisplayStart : Option String
deriving Repr

/-- `int(request.GET.get('iDisplayStart', 0))`: 0 when absent, otherwise
Python `int()` on the raw string, which raises `ValueError` on non-numeric
input. -/
def parseDisplayStart : Option String → Except String Int
  | none => .ok 0
  | some s =>
    match pyInt s with
    | some n => .ok n
    | none => .error ("ValueError: invalid literal for int(): " ++ s)

/-- Lines 38-45: the base queryset (exclude default locale, exclude
redirects) with the `orderby` allow-list check and `-modified` fallback. -/
def locDocs (cfg : Config) (db : List Doc) (orderby : String) : List Doc :=
  let docs := (db.filter (fun d => !(d.locale == cfg.defaultLocale))).filter
    (fun d => !d.is_redirect)
  if orderby ≠ "" ∧ orderby ∈ cfg.orders then applyOrder orderby docs
  else applyOrder "-modified" docs

/-- Lines 49-76: build `query_kwargs`, then either filter and count, or (on
an empty kwargs dict) fall through to counting the unfiltered queryset. -/
def locFilteredTotal (cfg : Config) (db : List Doc) (locale : Option String)
    (topic orderby localization_flags : String) : List Doc × Nat :=
  let docs := locDocs cfg db orderby
  let kw := buildQueryKwargs cfg locale topic localization_flags
  if kw ≠ [] then
    let f := docs.filter (condsHold kw)
    (f, f.length)
  else
    (docs, docs.length)

/-- Lines 31-82: parameter reading and the guarded page slice. Returns the
total together with the documents the response loop will serialize; note the
slice is skipped entirely when `total < display_start`. -/
def locSelectedOfReq (cfg : Config) (db : List Doc) (req : LocRequest) :
    Except String (Nat × List Doc) :=
  match parseDisplayStart req.iDisplayStart with
  | .error e => .error e
  | .ok display_start =>
    let ft := locFilteredTotal cfg db req.locale (req.topic.getD "")
        (req.orderby.getD "-modified") (req.localization_flags.getD "update-needed")
    if (ft.2 : Int) ≥ display_start then
      match sliceQS ft.1 display_start cfg.pageSize with
      | .error e => .error e
      | .ok sliced => .ok (ft.2, sliced)
    else
      .ok (ft.2, ft.1)

/-- One element of `aaData`. -/
structure Row where
  locale : String
  title : String
  rev_date : String
  parent_title : String
  parent_rev_date : String
deriving Repr, DecidableEq

/-- The `'<a href="%s">%s</a>'` interpolation. -/
def anchor (url text : String) : String :=
  "<a href=\x22" ++ url ++ "\x22>" ++ text ++ "</a>"

/-- Lines 89-108: serialize one document into a row. The document's own
`rev_date` is guarded against a missing current revision, but the parent
branch dereferences `p.current_revision` unguarded, so a parent without a
current revision raises `AttributeError`. -/
def serializeDoc (d : Doc) : Except String Row :=
  let locale := d.language ++ " (" ++ d.locale ++ ")"
  let title := anchor d.url (escape d.title)
  let rev_date :=
    match d.current_revision with
    | some r => strftimeRevDate r.created
    | none => ""
  match d.parent with
  | some p =>
      match p.current_revision with
      | some p_c =>
          .ok { locale := locale, title := title, rev_date := rev_date,
                parent_title := anchor p_c.url (escape p_c.title),
                parent_rev_date := strftimeRevDate p_c.created }
      | none =>
          .error "AttributeError: NoneType object has no attribute get_absolute_url"
  | none =>
      .ok { locale := locale, title := title, rev_date := rev_date,
            parent_title := "", parent_rev_date := "" }

/-- The JSON object `fetch_localization_data` serializes. -/
structure LocResponse where
  iTotalRecords : Nat
  iTotalDisplayRecords : Nat
  aaData : List Row
deriving Repr, DecidableEq

/-- The whole handler `fetch_localization_data` (lines 30-111). -/
def fetch_localization_data (cfg : Config) (db : List Doc) (req : LocRequest) :
    Except String LocResponse :=
  match locSelectedOfReq cfg db req with
  | .error e => .error e
  | .ok (total, docs) =>
    match docs.mapM serializeDoc with
    | .error e => .error e
    | .ok rows =>
      .ok { iTotalRecords := total, iTotalDisplayRecords := total, aaData := rows }

/-! ## Lookup endpoints -/

/-- One element of a lookup response: `{'label': value}`. -/
structure Label where
  label : String
deriving Repr, DecidableEq

/-- What the lookup endpoints read from a request: whether it
self-identifies as asynchronous (`request.is_ajax()`) and the single query
parameter (`user` resp. `topic`). -/
structure LookupRequest where
  is_ajax : Bool
  query : Option String
deriving Repr

/-- The handler `user_lookup` (lines 200-213): on an asynchronous request
with a non-empty `user` parameter, the users whose username starts with it
case-insensitively (`username__istartswith`); otherwise the empty list. -/
def user_lookup (users : List UserRec) (req : LookupRequest) : List Label :=
  if req.is_ajax then
    let user := req.query.getD ""
    if user ≠ "" then
      (users.filter (fun u => istartswith u.username user)).map
        (fun u => { label := u.username })
    else []
  else []

/-- The handler `topic_lookup` (lines 217-230): on an asynchronous request
with a non-empty `topic` parameter, the documents whose slug contains it
case-insensitively (`slug__icontains`); otherwise the empty list. -/
def topic_lookup (db : List Doc) (req : LookupRequest) : List Label :=
  if req.is_ajax then
    let topic := req.query.getD ""
    if topic ≠ "" then
      (db.filter (fun d => icontains d.slug topic)).map
        (fun d => { label := d.slug })
    else []
  else []

/-! ## The revisions dashboard queryset -/

/-- The filter conditions the `revisions` handler can put into its
`query_kwargs`. -/
inductive RCond : Type where
  | creatorUsernameIStartswith (v : String)
  | documentLocale (v : String)
  | slugIContains (v : String)
  | createdRange (a b : DateTime)
deriving Repr, DecidableEq

/-- Evaluate one revision filter condition; Django `created__range=[a, b]`
is SQL `BETWEEN`, inclusive at both ends. -/
def RCond.eval (r : RevisionRec) : RCond → Bool
  | .creatorUsernameIStartswith v => istartswith r.creator_username v
  | .documentLocale v => r.document_locale == v
  | .slugIContains v => icontains r.slug v
  | .createdRange a b => DateTime.le a r.created && DateTime.le r.created b

/-- A revision satisfies every condition of the kwargs dict. -/
def rcondsHold (kw : List (String × RCond)) (r : RevisionRec) : Bool :=
  kw.all (fun p => p.2.eval r)

/-- Modelled from the spec: the output of `RevisionDashboardForm`
(`dashboards/forms.py`, not among the sources) — typed, defaulted fields
with no field required: text fields default to the empty string, the two
dates are optional. -/
structure RevCleanedData where
  user : String
  locale : String
  topic : String
  start_date : Option DateTime
  end_date : Option DateTime
deriving Repr

/-- Lines 155-173 of `revisions`: build `query_kwargs` from the cleaned form
data — the three text filters, then `created__range` from `start_date` to
`end_date or datetime.datetime.now()`. -/
def buildRevisionsKwargs (cd : RevCleanedData) (now : DateTime) :
    List (String × RCond) :=
  let kw : List (String × RCond) := []
  let kw :=
    if cd.user ≠ "" then
      setKey kw "creator__username__istartswith"
        (RCond.creatorUsernameIStartswith cd.user)
    else kw
  let kw :=
    if cd.locale ≠ "" then
      setKey kw "document__locale" (RCond.documentLocale cd.locale)
    else kw
  let kw :=
    if cd.topic ≠ "" then
      setKey kw "slug__icontains" (RCond.slugIContains cd.topic)
    else kw
  match cd.start_date with
  | some s => setKey kw "created__range" (RCond.createdRange s (cd.end_date.getD now))
  | none => kw

/-- Lines 144-181 of `revisions`: order by `-created`, and if the form was
valid and produced a non-empty (truthy) kwargs dict, filter and count it;
otherwise leave the queryset unfiltered and count the whole table. Returns
the queryset handed to the paginator together with `total`. -/
def revisionsQueryset (db : List RevisionRec) (formValid : Bool)
    (cd : RevCleanedData) (now : DateTime) : List RevisionRec × Nat :=
  let base := sortBy (fun a b => DateTime.le b.created a.created) db
  if formValid then
    let kw := buildRevisionsKwargs cd now
    if kw ≠ [] then
      let f := base.filter (rcondsHold kw)
      (f, f.length)
    else (base, db.length)
  else (base, db.length)

/-! ## Concrete sample data for evaluations -/

/-- A sample configuration (the spec-modelled constants instantiated). -/
def cfg0 : Config :=
  { defaultLocale := "en-US", languages := ["en-US", "fr", "de"],
    orders := ["-modified", "title"], localizationFlags := ["rejected"],
    pageSize := 100 }

/-- A sample current revision of the sample parent document. -/
def rev0 : RevisionRec :=
  { title := "Intro", slug := "intro", url := "/en-US/docs/intro/rev",
    created := ⟨2011, 5, 2, 14, 30⟩, creator_username := "alice",
    document_locale := "en-US", localization_tags := [] }

/-- A sample parent (source-locale) document with a current revision. -/
def parent0 : Doc :=
  .mk "en-US" "English" "intro" "Intro" "/en-US/docs/intro" false
    ⟨2011, 6, 1, 0, 0⟩ (some rev0) none

/-- A sample parent document whose `current_revision` is NULL. -/
def parentNoRev : Doc :=
  .mk "en-US" "English" "intro" "Intro" "/en-US/docs/intro" false
    ⟨2011, 6, 1, 0, 0⟩ none none

/-- A sample translated document that needs an update (`modified` older than
its parent's). -/
def doc0 : Doc :=
  .mk "fr" "Français" "intro-fr" "Intro FR" "/fr/docs/intro" false
    ⟨2011, 5, 1, 0, 0⟩ (some rev0) (some parent0)

/-- Like `doc0` but its parent has no current revision. -/
def docParentNoRev : Doc :=
  .mk "fr" "Français" "intro-fr" "Intro FR" "/fr/docs/intro" false
    ⟨2011, 5, 1, 0, 0⟩ (some rev0) (some parentNoRev)

/-- A request to the localization data table with every parameter absent. -/
def reqDefault : LocRequest :=
  { locale := none, topic := none, orderby := none,
    localization_flags := none, iDisplayStart := none }

/-- The default request with `iDisplayStart=2`. -/
def reqStart2 : LocRequest :=
  { reqDefault with iDisplayStart := some "2" }

/-- The default request with the non-numeric `iDisplayStart=abc`. -/
def reqAbc : LocRequest :=
  { reqDefault with iDisplayStart := some "abc" }

/-- A sample translated document with no parent. -/
def docNoParent : Doc :=
  .mk "fr" "Français" "intro-fr" "Intro FR" "/fr/docs/intro" false
    ⟨2011, 5, 1, 0, 0⟩ (some rev0) none

/-- The default request with `localization_flags=missing-parent`. -/
def reqMissingParent : LocRequest :=
  { reqDefault with localization_flags := some "missing-parent" }


/-! ## Helper lemmas -/

/-- Assigning into a dict never leaves it empty. -/
theorem setKey_ne_nil {α : Type} (l : List (String × α)) (k : String) (v : α) :
    setKey l k v ≠ [] := by
  cases l with
  | nil => simp [setKey]
  | cons p l =>
    simp only [setKey]
    split
    · simp
    · simp

/-- After `d[k] = v` the dict contains the pair `(k, v)`. -/
theorem mem_setKey_self {α : Type} (l : List (String × α)) (k : String) (v : α) :
    (k, v) ∈ setKey l k v := by
  simp only [setKey]
  split
  case isTrue h =>
    simp only [List.any_eq_true, decide_eq_true_eq] at h
    rcases h with ⟨p, hp, hk⟩
    exact List.mem_map.mpr ⟨p, hp, by simp [hk]⟩
  case isFalse h =>
    simp

/-- Assigning a different key preserves membership of a pair. -/
theorem mem_setKey_of_ne {α : Type} {l : List (String × α)} {k : String} {v : α}
    (k' : String) (v' : α) (hm : (k, v) ∈ l) (hne : k ≠ k') :
    (k, v) ∈ setKey l k' v' := by
  simp only [setKey]
  split
  · exact List.mem_map.mpr ⟨(k, v), hm, by simp [hne]⟩
  · exact List.mem_append_left _ hm

/-- On the `update-needed` flag value the flag branch adds the
`modified__lt` condition. -/
theorem flagStep_update_needed (cfg : Config) (k : List (String × Cond)) :
    flagStep cfg "update-needed" k
      = setKey k "modified__lt" Cond.modifiedLtParentModified := by
  rw [flagStep, if_pos rfl]

/-- On the `missing-parent` flag value the flag branch overwrites
`parent__isnull` with `True`. -/
theorem flagStep_missing_parent (cfg : Config) (k : List (String × Cond)) :
    flagStep cfg "missing-parent" k
      = setKey k "parent__isnull" (Cond.parentIsNull true) := by
  rw [flagStep, if_neg (by decide), if_pos rfl]

/-- The topic step never empties the dict. -/
theorem topicStep_ne_nil (topic : String) {k : List (String × Cond)}
    (h : k ≠ []) : topicStep topic k ≠ [] := by
  rw [topicStep]
  split
  · exact setKey_ne_nil _ _ _
  · exact h

/-- The flag step never empties the dict. -/
theorem flagStep_ne_nil (cfg : Config) (f : String) {k : List (String × Cond)}
    (h : k ≠ []) : flagStep cfg f k ≠ [] := by
  rw [flagStep]
  split
  · exact setKey_ne_nil _ _ _
  · split
    · exact setKey_ne_nil _ _ _
    · split
      · exact setKey_ne_nil _ _ _
      · exact h

/-- The localization `query_kwargs` dict is never empty: the
`parent__isnull` entry of line 56 is inserted unconditionally. -/
theorem buildQueryKwargs_ne_nil (cfg : Config) (locale : Option String)
    (topic localization_flags : String) :
    buildQueryKwargs cfg locale topic localization_flags ≠ [] :=
  topicStep_ne_nil _ (flagStep_ne_nil _ _ (setKey_ne_nil _ _ _))

/-- The topic step preserves entries under other keys. -/
theorem mem_topicStep (topic : String) {k : List (String × Cond)}
    {key : String} {v : Cond} (h : (key, v) ∈ k)
    (hne : key ≠ "slug__icontains") : (key, v) ∈ topicStep topic k := by
  rw [topicStep]
  split
  · exact mem_setKey_of_ne _ _ h hne
  · exact h

/-- With the `update-needed` flag, the kwargs contain
`parent__isnull=False`. -/
theorem parent_false_mem_update_needed (cfg : Config) (locale : Option String)
    (topic : String) :
    ("parent__isnull", Cond.parentIsNull false)
      ∈ buildQueryKwargs cfg locale topic "update-needed" := by
  rw [buildQueryKwargs, flagStep_update_needed]
  exact mem_topicStep _
    (mem_setKey_of_ne _ _ (mem_setKey_self _ _ _) (by decide)) (by decide)

/-- With the `update-needed` flag, the kwargs contain the
`modified__lt=F('parent__modified')` condition. -/
theorem modified_lt_mem_update_needed (cfg : Config) (locale : Option String)
    (topic : String) :
    ("modified__lt", Cond.modifiedLtParentModified)
      ∈ buildQueryKwargs cfg locale topic "update-needed" := by
  rw [buildQueryKwargs, flagStep_update_needed]
  exact mem_topicStep _ (mem_setKey_self _ _ _) (by decide)

/-- With the `missing-parent` flag, the kwargs contain
`parent__isnull=True` (the overwritten entry). -/
theorem parent_true_mem_missing_parent (cfg : Config) (locale : Option String)
    (topic : String) :
    ("parent__isnull", Cond.parentIsNull true)
      ∈ buildQueryKwargs cfg locale topic "missing-parent" := by
  rw [buildQueryKwargs, flagStep_missing_parent]
  exact mem_topicStep _ (mem_setKey_self _ _ _) (by decide)

/-- A document passing the combined filter satisfies each member
condition. -/
theorem cond_eval_of_condsHold {kw : List (String × Cond)} {d : Doc}
    {k : String} {c : Cond} (h : condsHold kw d = true) (hm : (k, c) ∈ kw) :
    c.eval d = true := by
  rw [condsHold, List.all_eq_true] at h
  exact h (k, c) hm

/-- Membership is invariant under the insertion-sort step. -/
theorem mem_insertBy {α : Type} (r : α → α → Bool) (a x : α) (l : List α) :
    x ∈ insertBy r a l ↔ x = a ∨ x ∈ l := by
  induction l with
  | nil => simp [insertBy]
  | cons b l ih =>
    simp only [insertBy]
    split
    · simp [List.mem_cons]
    · simp only [List.mem_cons, ih]
      tauto

/-- Membership is invariant under sorting. -/
theorem mem_sortBy {α : Type} (r : α → α → Bool) (x : α) (l : List α) :
    x ∈ sortBy r l ↔ x ∈ l := by
  induction l with
  | nil => simp [sortBy]
  | cons a l ih => simp [sortBy, mem_insertBy, ih, List.mem_cons]

/-- Membership is invariant under `order_by`. -/
theorem mem_applyOrder (key : String) (x : Doc) (docs : List Doc) :
    x ∈ applyOrder key docs ↔ x ∈ docs := by
  simp only [applyOrder]
  split
  · exact mem_sortBy _ _ _
  · split
    · exact mem_sortBy _ _ _
    · split
      · exact mem_sortBy _ _ _
      · exact mem_sortBy _ _ _

/-- Every document in the filtered-and-counted queryset satisfies the built
kwargs (the empty-kwargs branch is never taken). -/
theorem condsHold_of_mem_locFilteredTotal {cfg : Config} {db : List Doc}
    {locale : Option String} {topic orderby localization_flags : String} {d : Doc}
    (h : d ∈ (locFilteredTotal cfg db locale topic orderby localization_flags).1) :
    condsHold (buildQueryKwargs cfg locale topic localization_flags) d = true := by
  rw [locFilteredTotal,
    if_pos (buildQueryKwargs_ne_nil cfg locale topic localization_flags)] at h
  exact (List.mem_filter.mp h).2

/-- A successful queryset slice only returns elements of the queryset. -/
theorem mem_of_sliceQS_ok {α : Type} {l l' : List α} {start : Int} {size : Nat}
    (h : sliceQS l start size = .ok l') {x : α} (hx : x ∈ l') : x ∈ l := by
  rw [sliceQS] at h
  split at h
  · exact absurd h (by simp)
  · cases h
    exact List.mem_of_mem_drop (List.mem_of_mem_take hx)

/-- Every document handed to the serialization loop is in the
filtered-and-counted queryset. -/
theorem mem_locFilteredTotal_of_locSelectedOfReq {cfg : Config} {db : List Doc}
    {req : LocRequest} {total : Nat} {ds : List Doc} {d : Doc}
    (h : locSelectedOfReq cfg db req = .ok (total, ds)) (hd : d ∈ ds) :
    d ∈ (locFilteredTotal cfg db req.locale (req.topic.getD "")
          (req.orderby.getD "-modified")
          (req.localization_flags.getD "update-needed")).1 := by
  rw [locSelectedOfReq] at h
  cases hp : parseDisplayStart req.iDisplayStart with
  | error e => rw [hp] at h; exact absurd h (by simp)
  | ok n =>
    rw [hp] at h
    dsimp only at h
    split at h
    · split at h
      · exact absurd h (by simp)
      case h_2 sliced heq =>
        cases h
        exact mem_of_sliceQS_ok heq hd
    · cases h
      exact hd

/-- The kwargs always carry a `parent__isnull` entry (with `False` except
under the `missing-parent` flag, which overwrites it with `True`). -/
theorem parent_isnull_mem_buildQueryKwargs (cfg : Config)
    (locale : Option String) (topic localization_flags : String) :
    ∃ b, ("parent__isnull", Cond.parentIsNull b)
      ∈ buildQueryKwargs cfg locale topic localization_flags := by
  rw [buildQueryKwargs, flagStep]
  split
  · exact ⟨false, mem_topicStep _
      (mem_setKey_of_ne _ _ (mem_setKey_self _ _ _) (by decide)) (by decide)⟩
  · split
    · exact ⟨true, mem_topicStep _ (mem_setKey_self _ _ _) (by decide)⟩
    · split
      · exact ⟨false, mem_topicStep _
          (mem_setKey_of_ne _ _ (mem_setKey_self _ _ _) (by decide)) (by decide)⟩
      · exact ⟨false, mem_topicStep _ (mem_setKey_self _ _ _) (by decide)⟩

/-- If the requested locale is outside the allow-list, the locale step adds
nothing, exactly as when the parameter is absent. -/
theorem localeStep_not_in_languages {cfg : Config} {l : String}
    (hl : l ∉ cfg.languages) : localeStep cfg (some l) = localeStep cfg none := by
  have hc : ¬(l ≠ "" ∧ l ∈ cfg.languages) := fun hc => hl hc.2
  simp only [localeStep, if_neg hc]

/-! ## Claim theorems -/

/-- C10: for every request to the localization data-table endpoint the
constructed `query_kwargs` is non-empty — a `parent__isnull` entry is always
present — so `locFilteredTotal` always takes the filtered branch and the
empty-filter fast path (counting the unfiltered queryset) is unreachable. -/
theorem c10_empty_filter_fast_path_unreachable (cfg : Config) (db : List Doc)
    (locale : Option String) (topic orderby localization_flags : String) :
    buildQueryKwargs cfg locale topic localization_flags ≠ []
      ∧ (∃ b, ("parent__isnull", Cond.parentIsNull b)
          ∈ buildQueryKwargs cfg locale topic localization_flags)
      ∧ locFilteredTotal cfg db locale topic orderby localization_flags
          = ((locDocs cfg db orderby).filter
              (condsHold (buildQueryKwargs cfg locale topic localization_flags)),
             ((locDocs cfg db orderby).filter
              (condsHold (buildQueryKwargs cfg locale topic localization_flags))).length) := by
  refine ⟨buildQueryKwargs_ne_nil _ _ _ _,
    parent_isnull_mem_buildQueryKwargs _ _ _ _, ?_⟩
  rw [locFilteredTotal, if_pos (buildQueryKwargs_ne_nil _ _ _ _)]

/-- C5: with `localization_flags=update-needed` — explicitly or by default
when the parameter is absent — every document handed to the row loop has a
non-null parent and is strictly older than it. -/
theorem c5_update_needed_rows_outdated (cfg : Config) (db : List Doc)
    (req : LocRequest)
    (hflag : req.localization_flags = none
      ∨ req.localization_flags = some "update-needed")
    (total : Nat) (ds : List Doc) (d : Doc)
    (h : locSelectedOfReq cfg db req = .ok (total, ds)) (hd : d ∈ ds) :
    ∃ p, d.parent = some p ∧ DateTime.lt d.modified p.modified = true := by
  have hf : req.localization_flags.getD "update-needed" = "update-needed" := by
    rcases hflag with h' | h' <;> rw [h'] <;> rfl
  have hm := mem_locFilteredTotal_of_locSelectedOfReq h hd
  rw [hf] at hm
  have he := cond_eval_of_condsHold (condsHold_of_mem_locFilteredTotal hm)
    (modified_lt_mem_update_needed cfg req.locale (req.topic.getD ""))
  cases hp : d.parent with
  | none =>
    simp only [Cond.eval, hp] at he
    exact absurd he (by decide)
  | some p =>
    simp only [Cond.eval, hp] at he
    exact ⟨p, rfl, he⟩

/-- C5 witness: on a concrete database and the all-defaults request, the one
returned document indeed has a parent it is older than. -/
theorem c5_update_needed_rows_outdated_witness :
    ∃ p, doc0.parent = some p ∧ DateTime.lt doc0.modified p.modified = true :=
  c5_update_needed_rows_outdated cfg0 [doc0] reqDefault (Or.inl rfl) 1 [doc0]
    doc0 (by rfl) (List.mem_singleton.mpr rfl)

/-- C6: with `localization_flags=missing-parent` every document handed to
the row loop has a null parent reference. -/
theorem c6_missing_parent_rows_parentless (cfg : Config) (db : List Doc)
    (req : LocRequest)
    (hflag : req.localization_flags = some "missing-parent")
    (total : Nat) (ds : List Doc) (d : Doc)
    (h : locSelectedOfReq cfg db req = .ok (total, ds)) (hd : d ∈ ds) :
    d.parent = none := by
  have hf : req.localization_flags.getD "update-needed" = "missing-parent" := by
    rw [hflag]; rfl
  have hm := mem_locFilteredTotal_of_locSelectedOfReq h hd
  rw [hf] at hm
  have he := cond_eval_of_condsHold (condsHold_of_mem_locFilteredTotal hm)
    (parent_true_mem_missing_parent cfg req.locale (req.topic.getD ""))
  simp only [Cond.eval, beq_iff_eq] at he
  exact Option.isNone_iff_eq_none.mp he

/-- C6 witness: on a concrete database and a `missing-parent` request, the
one returned document has no parent. -/
theorem c6_missing_parent_rows_parentless_witness : docNoParent.parent = none :=
  c6_missing_parent_rows_parentless cfg0 [docNoParent] reqMissingParent rfl 1
    [docNoParent] docNoParent (by rfl) (List.mem_singleton.mpr rfl)

/-- C7: a locale value outside the `LANGUAGES` allow-list adds no filter, so
the full response equals the one for the same request without a locale
parameter; in particular no error is introduced. -/
theorem c7_unsupported_locale_ignored (cfg : Config) (db : List Doc)
    (l : String) (hl : l ∉ cfg.languages)
    (topic orderby localization_flags iDisplayStart : Option String) :
    fetch_localization_data cfg db
        ⟨some l, topic, orderby, localization_flags, iDisplayStart⟩
      = fetch_localization_data cfg db
        ⟨none, topic, orderby, localization_flags, iDisplayStart⟩ := by
  have hb : ∀ t f, buildQueryKwargs cfg (some l) t f = buildQueryKwargs cfg none t f := by
    intro t f
    rw [buildQueryKwargs, buildQueryKwargs, localeStep_not_in_languages hl]
  simp only [fetch_localization_data, locSelectedOfReq, locFilteredTotal, hb]

/-- C7 witness: the concrete unsupported locale `xx` gives the same response
as omitting the parameter. -/
theorem c7_unsupported_locale_ignored_witness :
    fetch_localization_data cfg0 [doc0] ⟨some "xx", none, none, none, none⟩
      = fetch_localization_data cfg0 [doc0] ⟨none, none, none, none, none⟩ :=
  c7_unsupported_locale_ignored cfg0 [doc0] "xx" (by decide) none none none none

/-- C1: the claim that an offset beyond the total yields an empty `aaData`
fails. With one matching document (total = 1) and `iDisplayStart=2`, line 78
skips the slice and the handler serializes the whole filtered queryset: the
response reports `iTotalRecords = 1` but carries 1 row instead of none. -/
theorem c1_offset_beyond_total_returns_all_rows :
    (fetch_localization_data cfg0 [doc0] reqStart2).map
        (fun r => (r.iTotalRecords, r.aaData.length)) = .ok (1, 1) := by
  rfl

/-- C2: the claim that no `iDisplayStart` value makes the handler raise
fails: `int('abc')` raises `ValueError`, which propagates (the imported
`smart_int` is never used). -/
theorem c2_non_numeric_display_start_raises :
    fetch_localization_data cfg0 [] reqAbc
      = .error "ValueError: invalid literal for int(): abc" := by
  rfl

/-- C3: the claim that a parent without a current revision yields empty
parent fields fails: line 97 dereferences `p.current_revision` without a
guard, so serialization raises `AttributeError` instead of returning empty
strings. -/
theorem c3_parent_without_current_revision_raises :
    fetch_localization_data cfg0 [docParentNoRev] reqDefault
      = .error "AttributeError: NoneType object has no attribute get_absolute_url" := by
  rfl

/-- C4 counterexample: the claim says `user_lookup` matches by substring
containment; on an asynchronous request for `bob`, the user `abob` — whose
username contains `bob` — is not returned, because the code uses
`username__istartswith`. -/
theorem c4_user_lookup_prefix_counterexample :
    user_lookup [{ username := "abob" }] { is_ajax := true, query := some "bob" } = []
      ∧ icontains "abob" "bob" = true := by
  exact ⟨rfl, rfl⟩

/-- C4 (amended): on an asynchronous request with a non-empty query, the
user lookup returns exactly the users whose username starts with the query
case-insensitively, and the topic lookup exactly the documents whose slug
contains the query case-insensitively, each wrapped as a label object with
no truncation. -/
theorem c4_lookup_match_semantics (users : List UserRec) (db : List Doc)
    (req : LookupRequest) (q : String) (ha : req.is_ajax = true)
    (hq : req.query = some q) (hne : q ≠ "") :
    user_lookup users req
        = (users.filter (fun u => istartswith u.username q)).map
            (fun u => { label := u.username })
      ∧ topic_lookup db req
        = (db.filter (fun d => icontains d.slug q)).map
            (fun d => { label := d.slug }) := by
  constructor <;> simp [user_lookup, topic_lookup, ha, hq, hne]

/-- C4 witness: the amended semantics at a concrete request. -/
theorem c4_lookup_match_semantics_witness :
    user_lookup [{ username := "bob" }] { is_ajax := true, query := some "b" }
        = (([{ username := "bob" }] : List UserRec).filter
            (fun u => istartswith u.username "b")).map
            (fun u => { label := u.username })
      ∧ topic_lookup [doc0] { is_ajax := true, query := some "b" }
        = ([doc0].filter (fun d => icontains d.slug "b")).map
            (fun d => { label := d.slug }) :=
  c4_lookup_match_semantics [{ username := "bob" }] [doc0]
    { is_ajax := true, query := some "b" } "b" rfl rfl (by decide)

/-- C9: a non-asynchronous request, or an asynchronous one with a missing
or empty query string, yields the empty list from both lookup endpoints,
regardless of the database contents. -/
theorem c9_lookup_empty_on_non_ajax_or_empty_query (users : List UserRec)
    (db : List Doc) (req : LookupRequest)
    (h : req.is_ajax = false ∨ req.query = none ∨ req.query = some "") :
    user_lookup users req = [] ∧ topic_lookup db req = [] := by
  rcases h with h | h | h <;> constructor <;>
    simp [user_lookup, topic_lookup, h]

/-- C9 witness: a non-asynchronous request with a non-empty query still
gets empty lists. -/
theorem c9_lookup_empty_on_non_ajax_or_empty_query_witness :
    user_lookup [{ username := "bob" }] { is_ajax := false, query := some "bob" } = []
      ∧ topic_lookup [doc0] { is_ajax := false, query := some "bob" } = [] :=
  c9_lookup_empty_on_non_ajax_or_empty_query [{ username := "bob" }] [doc0]
    { is_ajax := false, query := some "bob" } (Or.inl rfl)

/-- C8: in a valid revisions-dashboard request with `start_date` set and
the three text filters empty, the queryset handed to the paginator holds
exactly the revisions created in the inclusive range from `start_date` to
`end_date`, the latter defaulting to the current time `now` when absent. -/
theorem c8_revisions_created_range (db : List RevisionRec)
    (cd : RevCleanedData) (now s : DateTime) (hu : cd.user = "")
    (hl : cd.locale = "") (ht : cd.topic = "") (hs : cd.start_date = some s)
    (r : RevisionRec) :
    r ∈ (revisionsQueryset db true cd now).1
      ↔ r ∈ db ∧ DateTime.le s r.created = true
          ∧ DateTime.le r.created (cd.end_date.getD now) = true := by
  have hkw : buildRevisionsKwargs cd now
      = [("created__range", RCond.createdRange s (cd.end_date.getD now))] := by
    rw [buildRevisionsKwargs]
    simp [hu, hl, ht, hs, setKey]
  have hne : ([("created__range", RCond.createdRange s (cd.end_date.getD now))]
      : List (String × RCond)) ≠ [] := by simp
  simp only [revisionsQueryset, hkw, if_pos rfl, if_pos hne]
  simp [List.mem_filter, rcondsHold, RCond.eval, mem_sortBy, Bool.and_eq_true]

/-- C8 witness: the concrete revision `rev0` is listed exactly when it lies
in the requested range. -/
theorem c8_revisions_created_range_witness :
    rev0 ∈ (revisionsQueryset [rev0] true
        { user := "", locale := "", topic := "",
          start_date := some { year := 2011, month := 5, day := 1,
                               hour := 0, minute := 0 },
          end_date := none }
        { year := 2011, month := 6, day := 1, hour := 0, minute := 0 }).1
      ↔ rev0 ∈ [rev0]
          ∧ DateTime.le { year := 2011, month := 5, day := 1, hour := 0, minute := 0 }
              rev0.created = true
          ∧ DateTime.le rev0.created
              ((none : Option DateTime).getD
                { year := 2011, month := 6, day := 1, hour := 0, minute := 0 }) = true :=
  c8_revisions_created_range [rev0]
    { user := "", locale := "", topic := "",
      start_date := some { year := 2011, month := 5, day := 1,
                           hour := 0, minute := 0 },
      end_date := none }
    { year := 2011, month := 6, day := 1, hour := 0, minute := 0 }
    { year := 2011, month := 5, day := 1, hour := 0, minute := 0 }
    rfl rfl rfl rfl rev0
